import Mathlib

/-!
Verification of the `chip8_core` crate (`src/chip8_core/src/lib.rs`):
a shallow embedding of the `Emu` struct and its operations
(`new`, `push`, `pop`, `reset`, `tick`, `fetch`, `execute`, `tick_timers`),
together with theorems settling the specification claims.

Machine integers are embedded as `Nat` (`u8`/`u16` values); the source's
arithmetic never needs wrapping on the paths that succeed, and every Rust
panic (debug-mode integer overflow checks, slice index out of bounds,
the `unimplemented!` macro) is modelled explicitly as an `Except.error`
carrying a `Crash` value.  An `Except.error` therefore means the Rust
process aborts at that point; it is NOT a reported, recoverable error
value returned to the caller (the source has no error type).
-/

namespace Chip8

def SCREEN_WIDTH : Nat := 64
def SCREEN_HEIGHT : Nat := 32

def RAM_SIZE : Nat := 4096
def NUM_REGISTERS : Nat := 16
def STACK_SIZE : Nat := 16
def NUM_KEYS : Nat := 16

def START_ADDRESS : Nat := 0x200

def FONTSET_SIZE : Nat := 80

def FONTSET : List Nat := [
  0xF0, 0x90, 0x90, 0x90, 0xF0,
  0x20, 0x60, 0x20, 0x20, 0x70,
  0xF0, 0x10, 0xF0, 0x80, 0xF0,
  0xF0, 0x10, 0xF0, 0x10, 0xF0,
  0x90, 0x90, 0xF0, 0x10, 0x10,
  0xF0, 0x80, 0xF0, 0x10, 0xF0,
  0xF0, 0x80, 0xF0, 0x90, 0xF0,
  0xF0, 0x10, 0x20, 0x40, 0x40,
  0xF0, 0x90, 0xF0, 0x90, 0xF0,
  0xF0, 0x90, 0xF0, 0x10, 0xF0,
  0xF0, 0x90, 0xF0, 0x90, 0x90,
  0xE0, 0x90, 0xE0, 0x90, 0xE0,
  0xF0, 0x80, 0x80, 0x80, 0xF0,
  0xE0, 0x90, 0x90, 0x90, 0xE0,
  0xF0, 0x80, 0xF0, 0x80, 0xF0,
  0xF0, 0x80, 0xF0, 0x80, 0x80]

/-- The `Emu` struct: `pc`/`i_reg`/`sp` are `u16`, `dt`/`st` are `u8`,
the arrays are embedded as total functions read at `Nat` indices
(the Rust index bound checks appear in the operations). -/
structure Emu where
  pc : Nat
  ram : Nat → Nat
  screen : Nat → Bool
  v_reg : Nat → Nat
  i_reg : Nat
  sp : Nat
  stack : Nat → Nat
  keys : Nat → Bool
  dt : Nat
  st : Nat

/-- The ways the Rust code aborts the process: debug-mode integer
underflow on `u16` subtraction, slice index out of bounds, and the
`unimplemented!` macro in `execute`'s catch-all arm (which formats the
offending opcode into the abort message). -/
inductive Crash where
  | subOverflow : Crash
  | oobIndex : Crash
  | unimplementedOp : Nat → Crash
deriving DecidableEq, Repr

/-- `copy_from_slice` into the length-`src.length` prefix of an array. -/
def writePrefix (f : Nat → Nat) (src : List Nat) : Nat → Nat :=
  fun i => if i < src.length then src.getD i 0 else f i

/-- `Emu::new`: power-on state, then the fontset copied over `ram[..80]`. -/
def Emu.new : Emu :=
  { pc := START_ADDRESS
    ram := writePrefix (fun _ => 0) FONTSET
    screen := fun _ => false
    v_reg := fun _ => 0
    i_reg := 0
    sp := 0
    stack := fun _ => 0
    keys := fun _ => false
    dt := 0
    st := 0 }

/-- `Emu::push`: `self.stack[self.sp as usize] = val; self.sp += 1;`.
The indexing panics when `sp ≥ 16`. -/
def push (e : Emu) (val : Nat) : Except Crash Emu :=
  if e.sp < STACK_SIZE then
    .ok { e with stack := fun i => if i = e.sp then val else e.stack i
                 sp := e.sp + 1 }
  else .error .oobIndex

/-- `Emu::pop`: `self.sp -= 1; self.stack[self.sp as usize]`.
With `sp = 0` the `u16` subtraction underflows (debug-mode panic; in
release it wraps to 65535 and the indexing panics instead — the process
aborts either way); with `sp - 1 ≥ 16` the indexing panics. -/
def pop (e : Emu) : Except Crash (Nat × Emu) :=
  if e.sp = 0 then .error .subOverflow
  else if e.sp - 1 < STACK_SIZE then
    .ok (e.stack (e.sp - 1), { e with sp := e.sp - 1 })
  else .error .oobIndex

/-- `Emu::reset`: reassigns every field to its power-on value, then
copies the fontset over `ram[..80]` (same steps as `new`). -/
def reset (_ : Emu) : Emu :=
  { pc := START_ADDRESS
    ram := writePrefix (fun _ => 0) FONTSET
    screen := fun _ => false
    v_reg := fun _ => 0
    i_reg := 0
    sp := 0
    stack := fun _ => 0
    keys := fun _ => false
    dt := 0
    st := 0 }

/-- `Emu::fetch`: reads `ram[pc]` and `ram[pc + 1]`, combines them
big-endian, and advances `pc` by 2.  Indexing panics when
`pc + 1 ≥ 4096` (at `pc = 4095` the second read is out of bounds; at
`pc ≥ 4096` already the first one is). -/
def fetch (e : Emu) : Except Crash (Nat × Emu) :=
  if e.pc + 1 < RAM_SIZE then
    let higher_byte := e.ram e.pc
    let lower_byte := e.ram (e.pc + 1)
    let op := (higher_byte <<< 8) ||| lower_byte
    .ok (op, { e with pc := e.pc + 2 })
  else .error .oobIndex

/-- `Emu::tick`: the body only runs `let op = self.fetch();` — the
decode and execute phases are comments in the source. -/
def tick (e : Emu) : Except Crash Emu :=
  match fetch e with
  | .ok (_, e') => .ok e'
  | .error c => .error c

/-- `Emu::execute`: splits the opcode into four nibbles and dispatches.
Only `0000`, `00E0` (CLS), `00EE` (RET) and `1nnn` (JMP) are
implemented; every other pattern hits `unimplemented!("Opcode {op:04X}
not implemented yet")`, which aborts the process. -/
def execute (e : Emu) (op : Nat) : Except Crash Emu :=
  let digit1 := (op &&& 0xF000) >>> 12
  let digit2 := (op &&& 0x0F00) >>> 8
  let digit3 := (op &&& 0x00F0) >>> 4
  let digit4 := op &&& 0x000F
  match digit1, digit2, digit3, digit4 with
  | 0, 0, 0, 0 => .ok e
  | 0, 0, 0xE, 0 => .ok { e with screen := fun _ => false }
  | 0, 0, 0xE, 0xE =>
    match pop e with
    | .ok (ret_addr, e') => .ok { e' with pc := ret_addr }
    | .error c => .error c
  | 1, _, _, _ => .ok { e with pc := op &&& 0xFFF }
  | _, _, _, _ => .error (.unimplementedOp op)

/-- `Emu::tick_timers`: decrements each timer when it is positive (the
`println!("Beep!")` on the sound timer's 1 → 0 edge is I/O only and
touches no state). -/
def tick_timers (e : Emu) : Emu :=
  let e1 := if e.dt > 0 then { e with dt := e.dt - 1 } else e
  if e1.st > 0 then { e1 with st := e1.st - 1 } else e1

/-- States reachable from the power-on state by the operations of the
crate (`new`, `reset`, `fetch`, `execute`, `push`, `pop`,
`tick_timers`); a crashing operation produces no new state. -/
inductive Reach : Emu → Prop where
  | init : Reach Emu.new
  | resetStep {e : Emu} : Reach e → Reach (reset e)
  | fetchStep {e e' : Emu} {op : Nat} :
      Reach e → fetch e = .ok (op, e') → Reach e'
  | execStep {e e' : Emu} {op : Nat} :
      Reach e → execute e op = .ok e' → Reach e'
  | pushStep {e e' : Emu} {val : Nat} :
      Reach e → push e val = .ok e' → Reach e'
  | popStep {e e' : Emu} {val : Nat} :
      Reach e → pop e = .ok (val, e') → Reach e'
  | timersStep {e : Emu} : Reach e → Reach (tick_timers e)

/-! ## Concrete states used by individual claims -/

/-- A state whose program memory holds `00 E0` (CLS) at the program
counter 0x200 and whose first framebuffer pixel is lit. -/
def c3State : Emu :=
  { Emu.new with
    ram := fun i => if i = 0x200 then 0x00
      else if i = 0x201 then 0xE0 else Emu.new.ram i
    screen := fun i => i == 0 }

/-- The state produced by executing `JMP 0xFFF` from power-on. -/
def c4State : Emu := { Emu.new with pc := 0xFFF }

/-- A state with stack pointer 17 (representable: `sp` is a `u16`). -/
def c10State : Emu := { Emu.new with sp := 17 }

/-- A one-deep call stack whose single return address is 0x234. -/
def c10Ex : Emu :=
  { Emu.new with sp := 1, stack := fun i => if i = 0 then 0x234 else 0 }

/-! ## Claims -/

/-- C1: the claim says executing `00EE` (RET) with `sp = 0` yields a
reported, recoverable StackUnderflow error with the state observable
afterwards.  The code instead runs `self.sp -= 1` unchecked: with
`sp = 0` the `u16` subtraction underflows and the process panics (in
release mode the wrapped index 65535 makes the stack access panic
instead) — there is no error type in the crate and no state survives. -/
theorem c1_ret_empty_stack_aborts :
    execute Emu.new 0x00EE = .error Crash.subOverflow := rfl

/-- C2: the claim says an opcode outside the canonical instruction table
produces a reported decode-failure outcome and the core never
terminates the process.  The code's catch-all arm runs
`unimplemented!("Opcode {op:04X} not implemented yet")`, which panics
and terminates the process (the opcode value appears only in the abort
message, not in any returned value). -/
theorem c2_unknown_opcode_aborts :
    execute Emu.new 0xFFFF = .error (Crash.unimplementedOp 0xFFFF) := rfl

/-- C3: the claim says one `tick` performs fetch + decode + execute, so
ticking on a `00E0` instruction clears the framebuffer.  In the code
`tick` only fetches (decode and execute are comments): on a state whose
opcode at the old `pc` is `0x00E0` and whose pixel 0 is lit, the tick
succeeds, advances `pc` to 0x202, and leaves pixel 0 still lit. -/
theorem c3_tick_fetches_only :
    fetch c3State = .ok (0x00E0, { c3State with pc := 0x202 }) ∧
    tick c3State = .ok { c3State with pc := 0x202 } ∧
    ({ c3State with pc := 0x202 } : Emu).screen 0 = true :=
  ⟨rfl, rfl, rfl⟩

/-- C4: the claim says every state reachable from power-on has
`pc ∈ [0, 4094]` and `sp ∈ [0, 16]`.  Executing `JMP 0xFFF`
(opcode 0x1FFF) from the power-on state succeeds and reaches a state
with `pc = 4095 > 4094` (the fetch that follows would index `ram[4096]`
out of bounds and panic): the code performs no range check on jumps. -/
theorem c4_pc_invariant_violated :
    execute Emu.new 0x1FFF = .ok c4State ∧ Reach c4State ∧ 4094 < c4State.pc :=
  ⟨rfl, @Reach.execStep Emu.new c4State 0x1FFF Reach.init rfl, by decide⟩

/-- C5: the claim says a `2nnn` (CALL) followed by `00EE` (RET) restores
`pc`.  The code does not implement `2nnn` at all: it falls to the
catch-all arm and the process aborts via `unimplemented!`, so the
round-trip never begins. -/
theorem c5_call_unimplemented :
    execute Emu.new 0x2333 = .error (Crash.unimplementedOp 0x2333) := rfl

/-- C6: for every state, `reset` produces exactly the power-on state
built by `new`: `pc = 0x200`, memory all zero except the 80-byte font
table at addresses 0x000–0x04F, and all registers, index register,
stack, stack pointer, framebuffer, keys, and timers zero. -/
theorem c6_reset_is_power_on (e : Emu) :
    reset e = Emu.new ∧
    (reset e).pc = 0x200 ∧
    (∀ i, (reset e).ram i = if i < 80 then FONTSET.getD i 0 else 0) ∧
    (∀ i, (reset e).v_reg i = 0) ∧
    (reset e).i_reg = 0 ∧
    (reset e).sp = 0 ∧
    (∀ i, (reset e).stack i = 0) ∧
    (∀ i, (reset e).screen i = false) ∧
    (∀ i, (reset e).keys i = false) ∧
    (reset e).dt = 0 ∧
    (reset e).st = 0 :=
  ⟨rfl, rfl, fun _ => rfl, fun _ => rfl, rfl, rfl, fun _ => rfl,
   fun _ => rfl, fun _ => rfl, rfl, rfl⟩

/-- C7: for every state, executing `0x00E0` (CLS) succeeds, turns every
framebuffer pixel off, and leaves the program counter, memory,
registers, index register, stack pointer, stack, keys, and both timers
unchanged. -/
theorem c7_cls_clears_screen_only (e : Emu) :
    ∃ e', execute e 0x00E0 = .ok e' ∧
      (∀ i, e'.screen i = false) ∧
      e'.pc = e.pc ∧ e'.ram = e.ram ∧ e'.v_reg = e.v_reg ∧
      e'.i_reg = e.i_reg ∧ e'.sp = e.sp ∧ e'.stack = e.stack ∧
      e'.keys = e.keys ∧ e'.dt = e.dt ∧ e'.st = e.st :=
  ⟨{ e with screen := fun _ => false }, rfl, fun _ => rfl, rfl, rfl, rfl,
   rfl, rfl, rfl, rfl, rfl, rfl⟩

/-- C8: for every state with `pc ≤ 0xFFE`, `fetch` succeeds, returns the
big-endian combination `ram[pc] <<< 8 ||| ram[pc+1]`, and the new state
differs from the old only in `pc`, advanced by exactly 2. -/
theorem c8_fetch_big_endian (e : Emu) (h : e.pc ≤ 0xFFE) :
    fetch e = .ok ((e.ram e.pc <<< 8) ||| e.ram (e.pc + 1),
      { e with pc := e.pc + 2 }) := by
  unfold fetch
  rw [if_pos (show e.pc + 1 < RAM_SIZE by simp only [RAM_SIZE]; omega)]

/-- Witness for C8 at the power-on state (`pc = 0x200 ≤ 0xFFE`). -/
theorem c8_fetch_big_endian_witness :
    Emu.new.pc ≤ 0xFFE ∧
    fetch Emu.new = .ok ((Emu.new.ram Emu.new.pc <<< 8) |||
      Emu.new.ram (Emu.new.pc + 1), { Emu.new with pc := Emu.new.pc + 2 }) :=
  ⟨by decide, c8_fetch_big_endian Emu.new (by decide)⟩

/-- C9: for every pair of timer values, one `tick_timers` call
decrements the delay timer exactly when it is positive and leaves it
unchanged (hence at 0) otherwise, and independently does the same for
the sound timer; with the decrement guarded by positivity neither
timer can go below zero. -/
theorem c9_tick_timers_decrement (e : Emu) :
    (tick_timers e).dt = (if 0 < e.dt then e.dt - 1 else e.dt) ∧
    (tick_timers e).st = (if 0 < e.st then e.st - 1 else e.st) := by
  unfold tick_timers
  by_cases hd : 0 < e.dt <;> by_cases hs : 0 < e.st <;> simp [hd, hs]

/-- C10 counterexample: the claim quantifies over every state with
`sp ≥ 1`, but `sp` is a `u16` and may exceed the 16-entry stack.  At
`sp = 17` the pop indexes `stack[16]`, which is out of bounds: the
process panics and `execute` produces no successor state at all. -/
theorem c10_ret_counterexample :
    1 ≤ c10State.sp ∧
    execute c10State 0x00EE = .error Crash.oobIndex ∧
    ∀ e', execute c10State 0x00EE ≠ Except.ok e' := by
  refine ⟨by decide, rfl, ?_⟩
  intro e' h
  rw [show execute c10State 0x00EE = .error Crash.oobIndex from rfl] at h
  exact Except.noConfusion h

/-- C10 amended: for every state with `1 ≤ sp ≤ 16`, executing `0x00EE`
succeeds and changes exactly two fields — `sp` decreases by 1 and `pc`
becomes `stack[sp - 1]` — while the stack array itself (the popped slot
keeps its stale value) and all other fields are unchanged. -/
theorem c10_ret_frame (e : Emu) (h1 : 1 ≤ e.sp) (h2 : e.sp ≤ 16) :
    ∃ e', execute e 0x00EE = .ok e' ∧
      e'.sp = e.sp - 1 ∧ e'.pc = e.stack (e.sp - 1) ∧
      e'.stack = e.stack ∧ e'.ram = e.ram ∧ e'.screen = e.screen ∧
      e'.v_reg = e.v_reg ∧ e'.i_reg = e.i_reg ∧ e'.keys = e.keys ∧
      e'.dt = e.dt ∧ e'.st = e.st := by
  have hsp : ¬ e.sp = 0 := by omega
  have hlt : e.sp - 1 < STACK_SIZE := by simp only [STACK_SIZE]; omega
  have hpop : pop e = .ok (e.stack (e.sp - 1), { e with sp := e.sp - 1 }) := by
    unfold pop
    rw [if_neg hsp, if_pos hlt]
  have h0 : execute e 0x00EE = (match pop e with
    | Except.ok (ret_addr, e') => Except.ok { e' with pc := ret_addr }
    | Except.error c => Except.error c) := rfl
  refine ⟨{ e with sp := e.sp - 1, pc := e.stack (e.sp - 1) }, ?_,
    rfl, rfl, rfl, rfl, rfl, rfl, rfl, rfl, rfl, rfl⟩
  rw [h0, hpop]

/-- Witness for the amended C10 at a concrete one-deep stack whose
return address is 0x234. -/
theorem c10_ret_frame_witness :
    1 ≤ c10Ex.sp ∧ c10Ex.sp ≤ 16 ∧
    (∃ e', execute c10Ex 0x00EE = .ok e' ∧
      e'.sp = c10Ex.sp - 1 ∧ e'.pc = c10Ex.stack (c10Ex.sp - 1) ∧
      e'.stack = c10Ex.stack ∧ e'.ram = c10Ex.ram ∧
      e'.screen = c10Ex.screen ∧ e'.v_reg = c10Ex.v_reg ∧
      e'.i_reg = c10Ex.i_reg ∧ e'.keys = c10Ex.keys ∧
      e'.dt = c10Ex.dt ∧ e'.st = c10Ex.st) :=
  ⟨by decide, by decide, c10_ret_frame c10Ex (by decide) (by decide)⟩

end Chip8
